import Mathlib

/-!
Verification of the flight-sequencer state machine of `src/Alia_4_v9.ino`
(`flightPattern`, lines 748-1090).

Modelling conventions:
* C `unsigned long` (32-bit on AVR/ESP Arduino cores) is modelled as `Nat`
  reduced modulo `2^32`; the C expression `a - b` on `unsigned long` is
  `usub32 a b` (wrap-around subtraction, never negative).
* C `int` is modelled as `Int` (the values stored in the delay variables stay
  far inside the 16/32-bit range, so no overflow reduction is needed).
* C `uint8_t` angle counters are modelled as `Nat`: the source only produces
  values `0..8` from values `0..255`, so no modulo-256 reduction can occur.
* C `float` arithmetic inside `calculatePropDelay` and the progress ratios is
  modelled as exact rational arithmetic over `ℚ`.  All progress inputs are
  quotients of small integers, and every property proved below depends on the
  resulting `propDelay` only through integer threshold comparisons that are
  insensitive to sub-ULP float rounding.  The C float-to-int conversion
  truncates toward zero, modelled by `truncToInt`.
* `Serial` debug printing and the `lastDebug` statics have no effect on any
  modelled state and are omitted.
* The frame buffer side effects are reified: `TickResult.pixels` is the list
  of indices passed to `strip.setPixelColor` (all calls use the single shared
  `normColor`, so the colour is not tracked), and `TickResult.shows` counts
  the `strip.show()` calls of the tick.
* The global `gotBreak` flag is an input of `tick`; the flag value after the
  tick is returned in `TickResult.gotBreak`.  The second `millis()` call in
  the abort branch (`phaseStart = millis()`) is modelled as returning the
  same timestamp as the tick's own `now`.
-/

namespace Alia

/-- `2^32`, the modulus of Arduino `unsigned long` arithmetic. -/
def UINT32 : Nat := 4294967296

/-- C `unsigned long` subtraction `a - b`: wraps modulo `2^32`. -/
def usub32 (a b : Nat) : Nat := (a % UINT32 + UINT32 - b % UINT32) % UINT32

/-- Conversion of a C `int` to `unsigned long`, as done by the usual
arithmetic conversions in comparisons like `now - lastPropUpdate >= propDelay`. -/
def toU32 (i : Int) : Nat := (i % (UINT32 : Int)).toNat

/-- C++ float-to-int conversion truncates toward zero. -/
def truncToInt (q : ℚ) : Int := if 0 ≤ q then q.floor else q.ceil

/-! Constants of `flightPattern` (source lines 758-771). -/

/-- Fastest prop speed (line 758). -/
def minPropDelay : Int := 10

/-- Slowest prop speed, the starting speed (line 759). -/
def maxPropDelay : Int := 500

/-- Fastest tail speed (line 760). -/
def minTailDelay : Int := 50

/-- Slowest tail speed (line 761). -/
def maxTailDelay : Int := 200

/-- Very slow tail delay used in LIFT and GROUND_PAUSE (line 762). -/
def verySlowTailDelay : Int := 400

/-- Tail delay during CONVENTIONAL (line 897). -/
def conventionalTailDelay : Int := 30

/-- LIFT phase duration (line 763). -/
def liftTime : Nat := 5000

/-- Hold time at the start of TRANSITION_IN (line 764). -/
def transitionInHoldTime : Nat := 3000

/-- Total TRANSITION_IN duration (line 765). -/
def transitionInTime : Nat := 8000

/-- CONVENTIONAL phase duration (line 766). -/
def conventionalTime : Nat := 5000

/-- Spin-up time of TRANSITION_OUT (line 767). -/
def transitionOutSpinUpTime : Nat := 5000

/-- Hold time of TRANSITION_OUT (line 768). -/
def transitionOutHoldTime : Nat := 3000

/-- Spin-down time of TRANSITION_OUT (line 769). -/
def transitionOutSpinDownTime : Nat := 5000

/-- Total TRANSITION_OUT/LANDING duration (line 770). -/
def transitionOutLandingTime : Nat := 13000

/-- GROUND_PAUSE duration (line 771). -/
def groundPauseTime : Nat := 5000

/-! LED layout constants (source lines 115-127). -/

/-- First LED index of prop 1. -/
def PROP1_START : Nat := 0

/-- First LED index of prop 2. -/
def PROP2_START : Nat := 9

/-- First LED index of prop 3. -/
def PROP3_START : Nat := 18

/-- First LED index of prop 4. -/
def PROP4_START : Nat := 27

/-- First LED index of the tail. -/
def TAIL_START : Nat := 36

/-- Last LED index of the tail. -/
def TAIL_END : Nat := 40

/-- The easing lambda of `flightPattern` (source lines 775-780): square the
progress, interpolate between `maxPropDelay` (slow) and `minPropDelay`
(fast), and convert the float result to `int`. -/
def calculatePropDelay (progress : ℚ) : Int :=
  let curved := progress * progress
  truncToInt ((maxPropDelay : ℚ) - curved * ((maxPropDelay : ℚ) - (minPropDelay : ℚ)))

/-- The static state of `flightPattern` (source lines 749-756). -/
structure FlightState where
  prop1_angle : Nat
  prop2_angle : Nat
  prop3_angle : Nat
  prop4_angle : Nat
  tail_pos : Nat
  lastPropUpdate : Nat
  lastTailUpdate : Nat
  propDelay : Int
  tailDelay : Int
  phaseStart : Nat
  phase : Int
deriving DecidableEq

/-- Initial values of the statics (lines 749-756): all counters and
timestamps zero, `propDelay = 500`, `tailDelay = 200`, phase `0` (LIFT). -/
def initState : FlightState :=
  { prop1_angle := 0, prop2_angle := 0, prop3_angle := 0, prop4_angle := 0
    tail_pos := 0, lastPropUpdate := 0, lastTailUpdate := 0
    propDelay := maxPropDelay, tailDelay := maxTailDelay
    phaseStart := 0, phase := 0 }

/-- The counter-rotation update applied to all four prop angles (source lines
800-803, repeated at 854-857 and 952-955): props 1 and 4 decrement with wrap
to 8, props 2 and 3 increment modulo 9. -/
def stepPropAngles (s : FlightState) : FlightState :=
  { s with
    prop1_angle := if 0 < s.prop1_angle then s.prop1_angle - 1 else 8
    prop2_angle := (s.prop2_angle + 1) % 9
    prop3_angle := (s.prop3_angle + 1) % 9
    prop4_angle := if 0 < s.prop4_angle then s.prop4_angle - 1 else 8 }

/-- The guarded prop rotor update `if (now - lastPropUpdate >= propDelay)`
(source lines 796-803): on firing, record `lastPropUpdate = now` and advance
all four angles. -/
def propTickUpdate (s : FlightState) (now : Nat) : FlightState :=
  if toU32 s.propDelay ≤ usub32 now s.lastPropUpdate then
    stepPropAngles { s with lastPropUpdate := now }
  else s

/-- Advance the tail one cell: `tail_pos = (tail_pos + 1) % (TAIL_END -
TAIL_START + 1)` and record the update time (e.g. source lines 820-821). -/
def tailAdvance (s : FlightState) (now : Nat) : FlightState :=
  { s with lastTailUpdate := now
           tail_pos := (s.tail_pos + 1) % (TAIL_END - TAIL_START + 1) }

/-- PHASE 0, LIFT (source lines 786-831). -/
def liftStep (s : FlightState) (now : Nat) : FlightState :=
  let phaseElapsed := usub32 now s.phaseStart
  let liftProgress : ℚ := (phaseElapsed : ℚ) / (liftTime : ℚ)
  let liftProgress := if 1 < liftProgress then 1 else liftProgress
  let s := { s with propDelay := calculatePropDelay liftProgress }
  let s := propTickUpdate s now
  let s := if toU32 verySlowTailDelay ≤ usub32 now s.lastTailUpdate then
      tailAdvance s now else s
  if liftTime ≤ phaseElapsed then
    { s with phase := 1, phaseStart := now, propDelay := minPropDelay }
  else s

/-- PHASE 1, TRANSITION_IN (source lines 834-889). -/
def transitionInStep (s : FlightState) (now : Nat) : FlightState :=
  let phaseElapsed := usub32 now s.phaseStart
  let s :=
    if transitionInHoldTime < phaseElapsed then
      let decelProgress : ℚ :=
        (usub32 phaseElapsed transitionInHoldTime : ℚ) /
          ((transitionInTime - transitionInHoldTime : Nat) : ℚ)
      let decelProgress := if 1 < decelProgress then 1 else decelProgress
      { s with propDelay := calculatePropDelay (1 - decelProgress) }
    else
      { s with propDelay := minPropDelay }
  let s := propTickUpdate s now
  let s := if toU32 minTailDelay ≤ usub32 now s.lastTailUpdate then
      tailAdvance s now else s
  if transitionInTime ≤ phaseElapsed then
    { s with phase := 2, phaseStart := now, propDelay := maxPropDelay }
  else s

/-- PHASE 2, CONVENTIONAL (source lines 892-917): only the tail advances. -/
def conventionalStep (s : FlightState) (now : Nat) : FlightState :=
  let phaseElapsed := usub32 now s.phaseStart
  let s := if toU32 conventionalTailDelay ≤ usub32 now s.lastTailUpdate then
      tailAdvance s now else s
  if conventionalTime ≤ phaseElapsed then
    { s with phase := 3, phaseStart := now, tailDelay := minTailDelay }
  else s

/-- PHASE 3, TRANSITION_OUT + LANDING (source lines 920-985): the tail
decelerates by 1ms per tail update (clamped at `maxTailDelay`), the props
spin up, hold, and spin down. -/
def transitionOutStep (s : FlightState) (now : Nat) : FlightState :=
  let phaseElapsed := usub32 now s.phaseStart
  let s :=
    if toU32 s.tailDelay ≤ usub32 now s.lastTailUpdate then
      let td := s.tailDelay + 1
      let td := if maxTailDelay < td then maxTailDelay else td
      tailAdvance { s with tailDelay := td } now
    else s
  let s :=
    if phaseElapsed < transitionOutSpinUpTime then
      let accelProgress : ℚ := (phaseElapsed : ℚ) / (transitionOutSpinUpTime : ℚ)
      { s with propDelay := calculatePropDelay accelProgress }
    else if phaseElapsed < transitionOutSpinUpTime + transitionOutHoldTime then
      { s with propDelay := minPropDelay }
    else
      let decelProgress : ℚ :=
        (usub32 (usub32 phaseElapsed transitionOutSpinUpTime) transitionOutHoldTime : ℚ) /
          (transitionOutSpinDownTime : ℚ)
      let decelProgress := if 1 < decelProgress then 1 else decelProgress
      { s with propDelay := calculatePropDelay (1 - decelProgress) }
  let s := propTickUpdate s now
  if transitionOutLandingTime ≤ phaseElapsed then
    { s with phase := 4, phaseStart := now, propDelay := maxPropDelay }
  else s

/-- PHASE 4, GROUND_PAUSE (source lines 988-1015): very slow tail; when
`phaseElapsed >= groundPauseTime` reset `phase`, `phaseStart`, `propDelay`
and `tailDelay` and return `true` (`complete`), skipping the rest of the
function. -/
def groundPauseStep (s : FlightState) (now : Nat) : FlightState × Bool :=
  let phaseElapsed := usub32 now s.phaseStart
  let s := if toU32 verySlowTailDelay ≤ usub32 now s.lastTailUpdate then
      tailAdvance s now else s
  if groundPauseTime ≤ phaseElapsed then
    ({ s with phase := 0, phaseStart := now
              propDelay := maxPropDelay, tailDelay := maxTailDelay }, true)
  else (s, false)

/-- The phase dispatch if/else-if chain of `flightPattern` (lines 786-1015).
Only the GROUND_PAUSE branch can return `true`. -/
def phaseStep (s : FlightState) (now : Nat) : FlightState × Bool :=
  if s.phase = 0 then (liftStep s now, false)
  else if s.phase = 1 then (transitionInStep s now, false)
  else if s.phase = 2 then (conventionalStep s now, false)
  else if s.phase = 3 then (transitionOutStep s now, false)
  else if s.phase = 4 then groundPauseStep s now
  else (s, false)

/-- The spinning/parked decision (source line 1021):
`(phase != 2) && (propDelay < maxPropDelay)`. -/
def propsSpinning (s : FlightState) : Bool :=
  decide (s.phase ≠ 2) && decide (s.propDelay < maxPropDelay)

/-- Pixel indices written by the spinning branch of the renderer (source
lines 1023-1047): two diametrically-opposite cells per prop. -/
def spinningPixels (s : FlightState) : List Nat :=
  [PROP1_START + s.prop1_angle % 9, PROP1_START + (s.prop1_angle + 4) % 9,
   PROP2_START + s.prop2_angle % 9, PROP2_START + (s.prop2_angle + 4) % 9,
   PROP3_START + s.prop3_angle % 9, PROP3_START + (s.prop3_angle + 4) % 9,
   PROP4_START + s.prop4_angle % 9, PROP4_START + (s.prop4_angle + 4) % 9]

/-- Pixel indices written by the parked branch of the renderer (source lines
1048-1065): offsets 0 and 4 for props 1 and 3, offsets 8 and 4 for props 2
and 4. -/
def parkedPixels : List Nat :=
  [PROP1_START + 0, PROP1_START + 4,
   PROP2_START + 8, PROP2_START + 4,
   PROP3_START + 0, PROP3_START + 4,
   PROP4_START + 8, PROP4_START + 4]

/-- All `setPixelColor` calls of the render section (source lines 1017-1069):
the prop pattern followed by the single tail cell. -/
def renderPixels (s : FlightState) : List Nat :=
  (if propsSpinning s then spinningPixels s else parkedPixels)
    ++ [TAIL_START + s.tail_pos]

/-- The abort reset (source lines 1074-1087): phase, phase timer, both delays
and all five position counters are reset; the two rotor update timestamps are
left unchanged. -/
def abortReset (s : FlightState) (now : Nat) : FlightState :=
  { s with phase := 0, phaseStart := now
           propDelay := maxPropDelay, tailDelay := maxTailDelay
           prop1_angle := 0, prop2_angle := 0, prop3_angle := 0
           prop4_angle := 0, tail_pos := 0 }

/-- Result of one call to `flightPattern`: the new static state, the returned
completion flag, the `gotBreak` flag after the call, the indices passed to
`setPixelColor`, and the number of `strip.show()` calls. -/
structure TickResult where
  state : FlightState
  complete : Bool
  gotBreak : Bool
  pixels : List Nat
  shows : Nat
deriving DecidableEq

/-- One call to `flightPattern` (source lines 748-1090) with clock value
`now0` and the global `gotBreak` equal to `gb` on entry.  The GROUND_PAUSE
completion path returns `true` early: nothing is rendered, `strip.show()` is
not called, and `gotBreak` is not examined.  Otherwise the frame is rendered
and committed once, and then the abort branch (lines 1074-1087) runs if
`gotBreak` is set. -/
def tick (s : FlightState) (now0 : Nat) (gb : Bool) : TickResult :=
  let now := now0 % UINT32
  let p := phaseStep s now
  if p.2 then
    { state := p.1, complete := true, gotBreak := gb, pixels := [], shows := 0 }
  else
    let px := renderPixels p.1
    if gb then
      { state := abortReset p.1 now, complete := false, gotBreak := false
        pixels := px, shows := 1 }
    else
      { state := p.1, complete := false, gotBreak := gb, pixels := px, shows := 1 }

/-- Run `count` ticks with the simulated clock `now = 10 * i` for tick index
`i` starting at `i = start`, from state `s`, with no abort; collect the tick
indices that returned `complete = true`. -/
def runAux : Nat → Nat → FlightState → List Nat → FlightState × List Nat
  | 0, _, s, acc => (s, acc)
  | count + 1, i, s, acc =>
      let r := tick s (10 * i) false
      runAux count (i + 1) r.state (if r.complete then acc ++ [i] else acc)

/-- The simulated 10ms-step run from the initial state: state after `n` ticks
and the list of completing tick indices among ticks `0, …, n-1`. -/
def runTrace (n : Nat) : FlightState × List Nat :=
  runAux n 0 initState []

end Alia

namespace Alia

/-! Concrete evaluation of the 10ms-step simulated run.  The run is split
into 200-tick chunks so that each chunk can be checked by `decide` without
deep reduction; the chunk states below are the evaluated intermediate
states of `runTrace`. -/

/-- State of the simulated run after 200 ticks (t = 1990ms ticked). -/
def chunkState1 : FlightState := ⟨5, 4, 4, 5, 4, 1880, 1600, 422, 200, 0, 0⟩

/-- State of the simulated run after 400 ticks (t = 3990ms ticked). -/
def chunkState2 : FlightState := ⟨7, 2, 2, 7, 4, 3960, 3600, 187, 200, 0, 0⟩

/-- State of the simulated run after 600 ticks (t = 5990ms ticked). -/
def chunkState3 : FlightState := ⟨1, 8, 8, 1, 2, 5990, 5960, 10, 200, 5000, 1⟩

/-- State of the simulated run after 800 ticks (t = 7990ms ticked). -/
def chunkState4 : FlightState := ⟨8, 1, 1, 8, 2, 7990, 7960, 10, 200, 5000, 1⟩

/-- State of the simulated run after 1000 ticks (t = 9990ms ticked). -/
def chunkState5 : FlightState := ⟨0, 0, 0, 0, 2, 9780, 9960, 322, 200, 5000, 1⟩

/-- State of the simulated run after 1200 ticks (t = 11990ms ticked). -/
def chunkState6 : FlightState := ⟨4, 5, 5, 4, 2, 11850, 11960, 480, 200, 5000, 1⟩

/-- State of the simulated run after 1400 ticks (t = 13990ms ticked). -/
def chunkState7 : FlightState := ⟨2, 7, 7, 2, 0, 12850, 13970, 500, 200, 13000, 2⟩

/-- State of the simulated run after 1600 ticks (t = 15990ms ticked). -/
def chunkState8 : FlightState := ⟨2, 7, 7, 2, 2, 12850, 15980, 500, 200, 13000, 2⟩

/-- State of the simulated run after 1800 ticks (t = 17990ms ticked). -/
def chunkState9 : FlightState := ⟨2, 7, 7, 2, 4, 12850, 17990, 500, 200, 13000, 2⟩

/-- State of the simulated run after 2000 ticks (t = 19990ms ticked). -/
def chunkState10 : FlightState := ⟨6, 3, 3, 6, 3, 19880, 19980, 422, 79, 18000, 3⟩

/-- State of the simulated run after 2200 ticks (t = 21990ms ticked). -/
def chunkState11 : FlightState := ⟨8, 1, 1, 8, 4, 21960, 21940, 187, 100, 18000, 3⟩

/-- State of the simulated run after 2400 ticks (t = 23990ms ticked). -/
def chunkState12 : FlightState := ⟨2, 7, 7, 2, 2, 23990, 23980, 10, 118, 18000, 3⟩

/-- State of the simulated run after 2600 ticks (t = 25990ms ticked). -/
def chunkState13 : FlightState := ⟨0, 0, 0, 0, 2, 25990, 25920, 10, 133, 18000, 3⟩

/-- State of the simulated run after 2800 ticks (t = 27990ms ticked). -/
def chunkState14 : FlightState := ⟨1, 8, 8, 1, 1, 27780, 27940, 322, 147, 18000, 3⟩

/-- State of the simulated run after 3000 ticks (t = 29990ms ticked). -/
def chunkState15 : FlightState := ⟨5, 4, 4, 5, 4, 29850, 29980, 480, 160, 18000, 3⟩

/-- State of the simulated run after 3200 ticks (t = 31990ms ticked). -/
def chunkState16 : FlightState := ⟨3, 6, 6, 3, 2, 30850, 31790, 500, 166, 31000, 4⟩

/-- State of the simulated run after 3400 ticks (t = 33990ms ticked). -/
def chunkState17 : FlightState := ⟨3, 6, 6, 3, 2, 30850, 33790, 500, 166, 31000, 4⟩

/-- State of the simulated run after 3600 ticks (t = 35990ms ticked). -/
def chunkState18 : FlightState := ⟨3, 6, 6, 3, 2, 30850, 35790, 500, 166, 31000, 4⟩

/-- State of the simulated run after all 3601 ticks: the completing tick at
t = 36000ms has reset phase, phase timer and both delays, leaving the
angle counters untouched. -/
def finalFlightState : FlightState := ⟨3, 6, 6, 3, 2, 30850, 35790, 500, 200, 36000, 0⟩

/-- Splitting a `runAux` run into two consecutive runs. -/
theorem runAux_append (n a b i j : Nat) (s s' : FlightState) (acc acc' : List Nat)
    (hn : n = a + b) (hj : j = i + a) (h : runAux a i s acc = (s', acc')) :
    runAux n i s acc = runAux b j s' acc' := by
  subst hn hj
  induction a generalizing i s acc with
  | zero =>
      simp only [runAux, Prod.mk.injEq] at h
      rw [Nat.zero_add, Nat.add_zero, h.1, h.2]
  | succ a ih =>
      have hab : a + 1 + b = a + b + 1 := by omega
      rw [hab]
      simp only [runAux] at h ⊢
      rw [ih _ _ _ h]
      have hia : i + 1 + a = i + (a + 1) := by omega
      rw [hia]

set_option maxRecDepth 100000 in
unseal Rat.mul Rat.add Rat.sub Rat.inv Nat.gcd in
/-- Ticks 0 to 199 of the simulated run. -/
theorem runAux_chunk0 : runAux 200 0 initState [] = (chunkState1, []) := by decide

set_option maxRecDepth 100000 in
unseal Rat.mul Rat.add Rat.sub Rat.inv Nat.gcd in
/-- Ticks 200 to 399 of the simulated run. -/
theorem runAux_chunk1 : runAux 200 200 chunkState1 [] = (chunkState2, []) := by decide

set_option maxRecDepth 100000 in
unseal Rat.mul Rat.add Rat.sub Rat.inv Nat.gcd in
/-- Ticks 400 to 599 of the simulated run. -/
theorem runAux_chunk2 : runAux 200 400 chunkState2 [] = (chunkState3, []) := by decide

set_option maxRecDepth 100000 in
unseal Rat.mul Rat.add Rat.sub Rat.inv Nat.gcd in
/-- Ticks 600 to 799 of the simulated run. -/
theorem runAux_chunk3 : runAux 200 600 chunkState3 [] = (chunkState4, []) := by decide

set_option maxRecDepth 100000 in
unseal Rat.mul Rat.add Rat.sub Rat.inv Nat.gcd in
/-- Ticks 800 to 999 of the simulated run. -/
theorem runAux_chunk4 : runAux 200 800 chunkState4 [] = (chunkState5, []) := by decide

set_option maxRecDepth 100000 in
unseal Rat.mul Rat.add Rat.sub Rat.inv Nat.gcd in
/-- Ticks 1000 to 1199 of the simulated run. -/
theorem runAux_chunk5 : runAux 200 1000 chunkState5 [] = (chunkState6, []) := by decide

set_option maxRecDepth 100000 in
unseal Rat.mul Rat.add Rat.sub Rat.inv Nat.gcd in
/-- Ticks 1200 to 1399 of the simulated run. -/
theorem runAux_chunk6 : runAux 200 1200 chunkState6 [] = (chunkState7, []) := by decide

set_option maxRecDepth 100000 in
unseal Rat.mul Rat.add Rat.sub Rat.inv Nat.gcd in
/-- Ticks 1400 to 1599 of the simulated run. -/
theorem runAux_chunk7 : runAux 200 1400 chunkState7 [] = (chunkState8, []) := by decide

set_option maxRecDepth 100000 in
unseal Rat.mul Rat.add Rat.sub Rat.inv Nat.gcd in
/-- Ticks 1600 to 1799 of the simulated run. -/
theorem runAux_chunk8 : runAux 200 1600 chunkState8 [] = (chunkState9, []) := by decide

set_option maxRecDepth 100000 in
unseal Rat.mul Rat.add Rat.sub Rat.inv Nat.gcd in
/-- Ticks 1800 to 1999 of the simulated run. -/
theorem runAux_chunk9 : runAux 200 1800 chunkState9 [] = (chunkState10, []) := by decide

set_option maxRecDepth 100000 in
unseal Rat.mul Rat.add Rat.sub Rat.inv Nat.gcd in
/-- Ticks 2000 to 2199 of the simulated run. -/
theorem runAux_chunk10 : runAux 200 2000 chunkState10 [] = (chunkState11, []) := by decide

set_option maxRecDepth 100000 in
unseal Rat.mul Rat.add Rat.sub Rat.inv Nat.gcd in
/-- Ticks 2200 to 2399 of the simulated run. -/
theorem runAux_chunk11 : runAux 200 2200 chunkState11 [] = (chunkState12, []) := by decide

set_option maxRecDepth 100000 in
unseal Rat.mul Rat.add Rat.sub Rat.inv Nat.gcd in
/-- Ticks 2400 to 2599 of the simulated run. -/
theorem runAux_chunk12 : runAux 200 2400 chunkState12 [] = (chunkState13, []) := by decide

set_option maxRecDepth 100000 in
unseal Rat.mul Rat.add Rat.sub Rat.inv Nat.gcd in
/-- Ticks 2600 to 2799 of the simulated run. -/
theorem runAux_chunk13 : runAux 200 2600 chunkState13 [] = (chunkState14, []) := by decide

set_option maxRecDepth 100000 in
unseal Rat.mul Rat.add Rat.sub Rat.inv Nat.gcd in
/-- Ticks 2800 to 2999 of the simulated run. -/
theorem runAux_chunk14 : runAux 200 2800 chunkState14 [] = (chunkState15, []) := by decide

set_option maxRecDepth 100000 in
unseal Rat.mul Rat.add Rat.sub Rat.inv Nat.gcd in
/-- Ticks 3000 to 3199 of the simulated run. -/
theorem runAux_chunk15 : runAux 200 3000 chunkState15 [] = (chunkState16, []) := by decide

set_option maxRecDepth 100000 in
unseal Rat.mul Rat.add Rat.sub Rat.inv Nat.gcd in
/-- Ticks 3200 to 3399 of the simulated run. -/
theorem runAux_chunk16 : runAux 200 3200 chunkState16 [] = (chunkState17, []) := by decide

set_option maxRecDepth 100000 in
unseal Rat.mul Rat.add Rat.sub Rat.inv Nat.gcd in
/-- Ticks 3400 to 3599 of the simulated run. -/
theorem runAux_chunk17 : runAux 200 3400 chunkState17 [] = (chunkState18, []) := by decide

set_option maxRecDepth 100000 in
unseal Rat.mul Rat.add Rat.sub Rat.inv Nat.gcd in
/-- The final tick of the simulated run, at t = 36000ms: it completes. -/
theorem runAux_last : runAux 1 3600 chunkState18 [] = (finalFlightState, [3600]) := by decide

/-- The glued 3600-tick run. -/
theorem runAux_3600 : runAux 3600 0 initState [] = (chunkState18, []) := by
  rw [runAux_append 3600 200 3400 0 200 initState chunkState1 [] [] rfl rfl runAux_chunk0]
  rw [runAux_append 3400 200 3200 200 400 chunkState1 chunkState2 [] [] rfl rfl runAux_chunk1]
  rw [runAux_append 3200 200 3000 400 600 chunkState2 chunkState3 [] [] rfl rfl runAux_chunk2]
  rw [runAux_append 3000 200 2800 600 800 chunkState3 chunkState4 [] [] rfl rfl runAux_chunk3]
  rw [runAux_append 2800 200 2600 800 1000 chunkState4 chunkState5 [] [] rfl rfl runAux_chunk4]
  rw [runAux_append 2600 200 2400 1000 1200 chunkState5 chunkState6 [] [] rfl rfl runAux_chunk5]
  rw [runAux_append 2400 200 2200 1200 1400 chunkState6 chunkState7 [] [] rfl rfl runAux_chunk6]
  rw [runAux_append 2200 200 2000 1400 1600 chunkState7 chunkState8 [] [] rfl rfl runAux_chunk7]
  rw [runAux_append 2000 200 1800 1600 1800 chunkState8 chunkState9 [] [] rfl rfl runAux_chunk8]
  rw [runAux_append 1800 200 1600 1800 2000 chunkState9 chunkState10 [] [] rfl rfl runAux_chunk9]
  rw [runAux_append 1600 200 1400 2000 2200 chunkState10 chunkState11 [] [] rfl rfl runAux_chunk10]
  rw [runAux_append 1400 200 1200 2200 2400 chunkState11 chunkState12 [] [] rfl rfl runAux_chunk11]
  rw [runAux_append 1200 200 1000 2400 2600 chunkState12 chunkState13 [] [] rfl rfl runAux_chunk12]
  rw [runAux_append 1000 200 800 2600 2800 chunkState13 chunkState14 [] [] rfl rfl runAux_chunk13]
  rw [runAux_append 800 200 600 2800 3000 chunkState14 chunkState15 [] [] rfl rfl runAux_chunk14]
  rw [runAux_append 600 200 400 3000 3200 chunkState15 chunkState16 [] [] rfl rfl runAux_chunk15]
  rw [runAux_append 400 200 200 3200 3400 chunkState16 chunkState17 [] [] rfl rfl runAux_chunk16]
  rw [runAux_append 200 200 0 3400 3600 chunkState17 chunkState18 [] [] rfl rfl runAux_chunk17]
  rfl

/-- The simulated 10ms-step run reaches `chunkState18` after 3600 ticks with
no completion reported yet. -/
theorem runTrace_3600 : runTrace 3600 = (chunkState18, []) := by
  rw [runTrace, runAux_3600]

/-- The full 3601-tick simulated run: exactly one completion, at tick index
3600, i.e. t = 36000ms. -/
theorem runTrace_3601 : runTrace 3601 = (finalFlightState, [3600]) := by
  rw [runTrace, runAux_append 3601 3600 1 0 3600 initState chunkState18 [] [] rfl rfl runAux_3600, runAux_last]

end Alia

namespace Alia

/-- `usub32` only depends on its first argument modulo `2^32`. -/
theorem usub32_mod_left (a b : Nat) : usub32 (a % UINT32) b = usub32 a b := by
  simp only [usub32, UINT32]
  omega

/-- The GROUND_PAUSE branch reports completion exactly when the phase timer
has reached `groundPauseTime`. -/
theorem groundPauseStep_snd_iff (s : FlightState) (now : Nat) :
    (groundPauseStep s now).2 = true ↔ groundPauseTime ≤ usub32 now s.phaseStart := by
  unfold groundPauseStep
  dsimp only
  split <;> simp_all

/-- The phase dispatch reports completion exactly when the phase is
GROUND_PAUSE and its timer has reached `groundPauseTime`. -/
theorem phaseStep_snd_iff (s : FlightState) (now : Nat) :
    (phaseStep s now).2 = true ↔
      (s.phase = 4 ∧ groundPauseTime ≤ usub32 now s.phaseStart) := by
  unfold phaseStep
  split_ifs with h0 h1 h2 h3 h4 <;>
    simp_all [groundPauseStep_snd_iff]

/-- `flightPattern` returns `true` exactly when called in GROUND_PAUSE with
the phase timer at or past `groundPauseTime`. -/
theorem tick_complete_iff (s : FlightState) (now : Nat) (gb : Bool) :
    (tick s now gb).complete = true ↔
      (s.phase = 4 ∧ groundPauseTime ≤ usub32 now s.phaseStart) := by
  unfold tick
  dsimp only
  rw [← usub32_mod_left now s.phaseStart, ← phaseStep_snd_iff s (now % UINT32)]
  split
  · simp_all
  · split <;> simp_all

end Alia

namespace Alia

/-- With phase GROUND_PAUSE the dispatch runs the GROUND_PAUSE branch. -/
theorem phaseStep_phase4 (s : FlightState) (now : Nat) (h4 : s.phase = 4) :
    phaseStep s now = groundPauseStep s now := by
  unfold phaseStep
  rw [h4]
  simp

/-- On a completing call the GROUND_PAUSE branch resets phase, phase timer
and both delays, after the ordinary tail update of the tick. -/
theorem groundPauseStep_eq_of_done (s : FlightState) (now : Nat)
    (h : groundPauseTime ≤ usub32 now s.phaseStart) :
    groundPauseStep s now =
      ({ (if toU32 verySlowTailDelay ≤ usub32 now s.lastTailUpdate then tailAdvance s now
          else s) with
          phase := 0, phaseStart := now
          propDelay := maxPropDelay, tailDelay := maxTailDelay }, true) := by
  unfold groundPauseStep
  dsimp only
  rw [if_pos h]

/-- Full description of a completing `flightPattern` call: the early
`return true` resets phase, timer and delays and skips both the render
section and the abort check. -/
theorem tick_completing (s : FlightState) (now : Nat) (gb : Bool)
    (h4 : s.phase = 4) (ht : groundPauseTime ≤ usub32 now s.phaseStart) :
    tick s now gb =
      { state := { (if toU32 verySlowTailDelay ≤ usub32 now s.lastTailUpdate then
              tailAdvance s (now % UINT32) else s) with
            phase := 0, phaseStart := now % UINT32
            propDelay := maxPropDelay, tailDelay := maxTailDelay }
        complete := true, gotBreak := gb, pixels := [], shows := 0 } := by
  unfold tick
  dsimp only
  rw [phaseStep_phase4 s _ h4,
      groundPauseStep_eq_of_done s _ (by rwa [usub32_mod_left]),
      usub32_mod_left]
  simp

/-- C1: starting from the initial state (phase LIFT, all prop angles and the
tail position zero, prop period 500ms, tail period 200ms, all last-update
timestamps zero) and ticking every 10ms for 36000ms, `flightPattern` returns
`complete = true` exactly once, at tick index 3600 (t = 36000ms =
5000+8000+5000+13000+5000), and a `true` return can only happen at the end
of GROUND_PAUSE (phase 4 with its timer at or past 5000ms). -/
theorem cycle_closed_simulated_run :
    (runTrace 3601).2 = [3600] ∧
    (tick (runTrace 3600).1 36000 false).complete = true ∧
    (∀ s now gb, (tick s now gb).complete = true →
      s.phase = 4 ∧ groundPauseTime ≤ usub32 now s.phaseStart) := by
  refine ⟨?_, ?_, ?_⟩
  · rw [runTrace_3601]
  · rw [runTrace_3600]
    decide
  · intro s now gb h
    exact (tick_complete_iff s now gb).mp h

/-- Witness for C1: the completing call of the simulated run is observed at
phase 4 at t = 36000ms. -/
theorem cycle_closed_simulated_run_witness :
    chunkState18.phase = 4 ∧ groundPauseTime ≤ usub32 36000 chunkState18.phaseStart :=
  cycle_closed_simulated_run.2.2 chunkState18 36000 false (by decide)

/-- C10: if the abort flag is set on the tick on which GROUND_PAUSE reaches
its 5000ms threshold, `flightPattern` returns `true` before the abort check
runs: nothing is rendered, no commit is requested, and the abort flag is
left set. -/
theorem completing_tick_skips_render_and_abort (s : FlightState) (now : Nat)
    (h4 : s.phase = 4) (ht : groundPauseTime ≤ usub32 now s.phaseStart) :
    (tick s now true).complete = true ∧ (tick s now true).pixels = [] ∧
    (tick s now true).shows = 0 ∧ (tick s now true).gotBreak = true := by
  rw [tick_completing s now true h4 ht]
  exact ⟨rfl, rfl, rfl, rfl⟩

/-- Witness for C10 at the completing state of the simulated run. -/
theorem completing_tick_skips_render_and_abort_witness :
    (tick chunkState18 36000 true).complete = true ∧
    (tick chunkState18 36000 true).pixels = [] ∧
    (tick chunkState18 36000 true).shows = 0 ∧
    (tick chunkState18 36000 true).gotBreak = true :=
  completing_tick_skips_render_and_abort chunkState18 36000 (by decide) (by decide)

/-- C2 counterexample: on the completing tick of the simulated run (a
reachable state) with the abort flag set, `flightPattern` returns
`complete = true`, leaves the abort flag set, and does not reset the angle
counters — contradicting the claim that abort handling is unconditional. -/
theorem abort_on_completing_tick_ignored :
    (tick (runTrace 3600).1 36000 true).complete = true ∧
    (tick (runTrace 3600).1 36000 true).gotBreak = true ∧
    (tick (runTrace 3600).1 36000 true).state.prop1_angle ≠ 0 := by
  rw [runTrace_3600]
  decide

/-- C2 (amended): on every tick that is not the completing
end-of-GROUND_PAUSE tick, observing the abort flag resets the state —
phase LIFT, all four prop angles and the tail position 0, both periods back
at their starting values — clears the flag and returns `complete = false`,
overriding the phase logic of that tick. -/
theorem abort_resets_unless_completing (s : FlightState) (now : Nat)
    (h : ¬(s.phase = 4 ∧ groundPauseTime ≤ usub32 now s.phaseStart)) :
    (tick s now true).state.phase = 0 ∧
    (tick s now true).state.prop1_angle = 0 ∧
    (tick s now true).state.prop2_angle = 0 ∧
    (tick s now true).state.prop3_angle = 0 ∧
    (tick s now true).state.prop4_angle = 0 ∧
    (tick s now true).state.tail_pos = 0 ∧
    (tick s now true).state.propDelay = initState.propDelay ∧
    (tick s now true).state.tailDelay = initState.tailDelay ∧
    (tick s now true).gotBreak = false ∧
    (tick s now true).complete = false := by
  have hps : ¬((phaseStep s (now % UINT32)).2 = true) := by
    rw [phaseStep_snd_iff, usub32_mod_left]
    exact h
  rw [Bool.not_eq_true] at hps
  unfold tick
  dsimp only
  rw [hps]
  simp [abortReset, initState]

/-- Witness for C2 (amended), at the initial state with the abort flag set. -/
theorem abort_resets_unless_completing_witness :
    (tick initState 0 true).state.phase = 0 ∧
    (tick initState 0 true).state.prop1_angle = 0 ∧
    (tick initState 0 true).state.prop2_angle = 0 ∧
    (tick initState 0 true).state.prop3_angle = 0 ∧
    (tick initState 0 true).state.prop4_angle = 0 ∧
    (tick initState 0 true).state.tail_pos = 0 ∧
    (tick initState 0 true).state.propDelay = initState.propDelay ∧
    (tick initState 0 true).state.tailDelay = initState.tailDelay ∧
    (tick initState 0 true).gotBreak = false ∧
    (tick initState 0 true).complete = false :=
  abort_resets_unless_completing initState 0 (by decide)

/-- Every render writes exactly 9 pixel indices: two per prop and one tail. -/
theorem renderPixels_length (s : FlightState) : (renderPixels s).length = 9 := by
  unfold renderPixels spinningPixels parkedPixels
  split <;> simp

/-- C5 (amended): every call lights at most 10 pixels, and requests the
hardware commit exactly once unless it is the completing call, which renders
nothing and requests no commit. -/
theorem tick_pixel_and_show_budget (s : FlightState) (now : Nat) (gb : Bool) :
    (tick s now gb).pixels.length ≤ 10 ∧
    (tick s now gb).shows = (if (tick s now gb).complete then 0 else 1) := by
  unfold tick
  dsimp only
  split
  · simp
  · split <;> simp [renderPixels_length]

/-- C5 counterexample: the completing tick of the simulated run (a reachable
state) requests no commit at all, contradicting "exactly once per tick". -/
theorem completing_tick_no_commit :
    (tick (runTrace 3600).1 36000 false).complete = true ∧
    (tick (runTrace 3600).1 36000 false).shows = 0 := by
  rw [runTrace_3600]
  decide

/-- C6 (amended): the completing tick resets phase to LIFT, restarts the
phase timer and resets both periods to their starting values, but leaves the
four prop angles untouched and gives the tail position its ordinary
per-tick update instead of resetting it. -/
theorem completion_resets_phase_and_delays_only (s : FlightState) (now : Nat) (gb : Bool)
    (h4 : s.phase = 4) (ht : groundPauseTime ≤ usub32 now s.phaseStart) :
    (tick s now gb).complete = true ∧
    (tick s now gb).state.phase = 0 ∧
    (tick s now gb).state.phaseStart = now % UINT32 ∧
    (tick s now gb).state.propDelay = maxPropDelay ∧
    (tick s now gb).state.tailDelay = maxTailDelay ∧
    (tick s now gb).state.prop1_angle = s.prop1_angle ∧
    (tick s now gb).state.prop2_angle = s.prop2_angle ∧
    (tick s now gb).state.prop3_angle = s.prop3_angle ∧
    (tick s now gb).state.prop4_angle = s.prop4_angle ∧
    (tick s now gb).state.tail_pos =
      (if toU32 verySlowTailDelay ≤ usub32 now s.lastTailUpdate then
        (s.tail_pos + 1) % 5 else s.tail_pos) := by
  rw [tick_completing s now gb h4 ht]
  refine ⟨rfl, rfl, rfl, rfl, rfl, ?_, ?_, ?_, ?_, ?_⟩ <;>
  · dsimp only
    split <;> simp [tailAdvance, TAIL_END, TAIL_START]

/-- Witness for C6 (amended) at the completing state of the simulated run. -/
theorem completion_resets_phase_and_delays_only_witness :
    (tick chunkState18 36000 false).complete = true ∧
    (tick chunkState18 36000 false).state.tail_pos =
      (if toU32 verySlowTailDelay ≤ usub32 36000 chunkState18.lastTailUpdate then
        (chunkState18.tail_pos + 1) % 5 else chunkState18.tail_pos) :=
  ⟨(completion_resets_phase_and_delays_only chunkState18 36000 false (by decide) (by decide)).1,
   (completion_resets_phase_and_delays_only chunkState18 36000 false (by decide)
      (by decide)).2.2.2.2.2.2.2.2.2⟩

/-- C6 counterexample: on the completing tick of the simulated run the tail
position and the prop angles keep their values instead of being reset to 0. -/
theorem completion_does_not_reset_counters :
    (tick (runTrace 3600).1 36000 false).complete = true ∧
    (tick (runTrace 3600).1 36000 false).state.tail_pos = 2 ∧
    (tick (runTrace 3600).1 36000 false).state.prop1_angle = 3 := by
  rw [runTrace_3600]
  decide

end Alia

namespace Alia

set_option maxRecDepth 100000 in
unseal Rat.mul Rat.add Rat.sub Rat.inv Nat.gcd in
/-- C3 counterexample: drive one tick at t = 600 (which advances the props
and records `lastPropUpdate = 600`), then tick with the clock jumped back to
t = 0.  The unsigned difference wraps to a huge value, so the prop rotors
advance again (prop 2 goes from 1 to 2) instead of being skipped. -/
theorem nonmonotonic_clock_advances_rotor :
    (tick initState 600 false).state.prop2_angle = 1 ∧
    (tick initState 600 false).state.lastPropUpdate = 600 ∧
    (tick (tick initState 600 false).state 0 false).state.prop2_angle = 2 := by
  decide

/-- C3 (amended): when `now < lastPropUpdate`, the C `unsigned long`
subtraction wraps modulo `2^32` to `2^32 - (lastPropUpdate - now)` — it is
never negative — and the prop rotor update is not skipped: it fires exactly
when that wrapped value reaches the current period, advancing the angles. -/
theorem nonmonotonic_clock_wraps (s : FlightState) (now : Nat)
    (hnow : now < UINT32) (hlast : s.lastPropUpdate < UINT32)
    (hmono : now < s.lastPropUpdate) :
    usub32 now s.lastPropUpdate = UINT32 - (s.lastPropUpdate - now) ∧
    (toU32 s.propDelay ≤ UINT32 - (s.lastPropUpdate - now) →
      propTickUpdate s now = stepPropAngles { s with lastPropUpdate := now }) ∧
    (UINT32 - (s.lastPropUpdate - now) < toU32 s.propDelay →
      propTickUpdate s now = s) := by
  have h1 : usub32 now s.lastPropUpdate = UINT32 - (s.lastPropUpdate - now) := by
    simp only [usub32, UINT32] at *
    omega
  refine ⟨h1, ?_, ?_⟩
  · intro h
    unfold propTickUpdate
    rw [h1, if_pos h]
  · intro h
    unfold propTickUpdate
    rw [h1, if_neg (by omega)]

/-- Witness for C3 (amended): with `lastPropUpdate = 600` and the clock back
at 0, the wrapped difference is `2^32 - 600` and the rotor advances. -/
theorem nonmonotonic_clock_wraps_witness :
    usub32 0 (600 : Nat) = UINT32 - 600 ∧
    propTickUpdate ⟨0, 0, 0, 0, 0, 600, 0, 500, 200, 0, 0⟩ 0 =
      stepPropAngles
        { (⟨0, 0, 0, 0, 0, 600, 0, 500, 200, 0, 0⟩ : FlightState) with lastPropUpdate := 0 } := by
  have h := nonmonotonic_clock_wraps ⟨0, 0, 0, 0, 0, 600, 0, 500, 200, 0, 0⟩ 0
    (by decide) (by decide) (by decide)
  exact ⟨h.1, h.2.1 (by decide)⟩

/-- The executable `Rat.floor` agrees with the mathematical floor. -/
theorem ratFloor_eq (q : ℚ) : q.floor = ⌊q⌋ := by
  rw [Rat.floor_def', Rat.floor_def]

/-- The easing polynomial before the float-to-int conversion:
`maxPropDelay - progress^2 * (maxPropDelay - minPropDelay)`. -/
def easeQ (progress : ℚ) : ℚ :=
  (maxPropDelay : ℚ) - progress * progress * ((maxPropDelay : ℚ) - (minPropDelay : ℚ))

/-- `calculatePropDelay` is the int truncation of the easing polynomial. -/
theorem calculatePropDelay_eq_easeQ (progress : ℚ) :
    calculatePropDelay progress = truncToInt (easeQ progress) := by
  unfold calculatePropDelay easeQ
  dsimp only

set_option maxRecDepth 10000 in
unseal Rat.mul Rat.add Rat.sub Rat.inv Nat.gcd in
/-- C4 counterexample: at progress 0.25 and 0.75 the easing curve yields
469.375 and 224.375 (469 and 224 after int truncation), not the claimed
468.75 and 225.6. -/
theorem ease_sample_values_wrong :
    easeQ (1/4) = 469.375 ∧ ¬(easeQ (1/4) = 468.75) ∧
    easeQ (3/4) = 224.375 ∧ ¬(easeQ (3/4) = 225.6) ∧
    calculatePropDelay (1/4) = 469 ∧ calculatePropDelay (3/4) = 224 := by
  refine ⟨?_, ?_, ?_, ?_, ?_, ?_⟩ <;>
    norm_num [easeQ, calculatePropDelay, truncToInt, ratFloor_eq, maxPropDelay, minPropDelay]

/-- C4 (amended): `ease(0) = 500` and `ease(1) = 10` exactly (both as exact
value and after int truncation), the samples at progress 0, 1/4, 1/2, 3/4, 1
are 500, 469.375, 377.5, 224.375, 10, and the curve is strictly decreasing
on [0, 1]. -/
theorem ease_monotone_and_endpoints :
    calculatePropDelay 0 = 500 ∧ calculatePropDelay 1 = 10 ∧
    easeQ 0 = 500 ∧ easeQ 1 = 10 ∧ easeQ (1/2) = 377.5 ∧
    (∀ x y : ℚ, 0 ≤ x → x < y → y ≤ 1 → easeQ y < easeQ x) := by
  refine ⟨?_, ?_, ?_, ?_, ?_, ?_⟩
  · norm_num [calculatePropDelay, truncToInt, ratFloor_eq, maxPropDelay, minPropDelay]
  · norm_num [calculatePropDelay, truncToInt, ratFloor_eq, maxPropDelay, minPropDelay]
  · norm_num [easeQ, maxPropDelay, minPropDelay]
  · norm_num [easeQ, maxPropDelay, minPropDelay]
  · norm_num [easeQ, maxPropDelay, minPropDelay]
  · intro x y hx hxy hy
    unfold easeQ
    have hsq : x * x < y * y := by nlinarith
    norm_num [maxPropDelay, minPropDelay]
    nlinarith

/-- Witness for C4 (amended): the curve strictly decreases from progress 0
to progress 1. -/
theorem ease_monotone_and_endpoints_witness :
    (0:ℚ) ≤ 0 ∧ (0:ℚ) < 1 ∧ (1:ℚ) ≤ 1 ∧ easeQ 1 < easeQ 0 :=
  ⟨le_refl 0, by norm_num, le_refl 1,
    ease_monotone_and_endpoints.2.2.2.2.2 0 1 (by norm_num) (by norm_num) (by norm_num)⟩

end Alia

namespace Alia

/-- Angle bounds: every prop angle in [0,9), the tail position in [0,5). -/
def anglesOK (s : FlightState) : Prop :=
  s.prop1_angle < 9 ∧ s.prop2_angle < 9 ∧ s.prop3_angle < 9 ∧
    s.prop4_angle < 9 ∧ s.tail_pos < 5

/-- Relation between the state before and after one pass of the phase logic:
each angle counter is unchanged or moved one step in its fixed direction —
props 1 and 4 decrement (with wrap to 8), props 2 and 3 increment modulo 9,
the tail increments modulo 5. -/
def angleEvolves (s t : FlightState) : Prop :=
  (t.prop1_angle = s.prop1_angle ∨
    t.prop1_angle = (if 0 < s.prop1_angle then s.prop1_angle - 1 else 8)) ∧
  (t.prop2_angle = s.prop2_angle ∨ t.prop2_angle = (s.prop2_angle + 1) % 9) ∧
  (t.prop3_angle = s.prop3_angle ∨ t.prop3_angle = (s.prop3_angle + 1) % 9) ∧
  (t.prop4_angle = s.prop4_angle ∨
    t.prop4_angle = (if 0 < s.prop4_angle then s.prop4_angle - 1 else 8)) ∧
  (t.tail_pos = s.tail_pos ∨ t.tail_pos = (s.tail_pos + 1) % 5)

set_option maxHeartbeats 1000000 in
/-- The LIFT branch only moves each rotor by its fixed step. -/
theorem liftStep_angles (s : FlightState) (now : Nat) :
    angleEvolves s (liftStep s now) := by
  unfold liftStep angleEvolves propTickUpdate stepPropAngles tailAdvance
  dsimp only
  split_ifs <;> simp [TAIL_END, TAIL_START]

set_option maxHeartbeats 1000000 in
/-- The TRANSITION_IN branch only moves each rotor by its fixed step. -/
theorem transitionInStep_angles (s : FlightState) (now : Nat) :
    angleEvolves s (transitionInStep s now) := by
  unfold transitionInStep angleEvolves propTickUpdate stepPropAngles tailAdvance
  dsimp only
  split_ifs <;> simp [TAIL_END, TAIL_START]

set_option maxHeartbeats 1000000 in
/-- The CONVENTIONAL branch only moves the tail by its fixed step. -/
theorem conventionalStep_angles (s : FlightState) (now : Nat) :
    angleEvolves s (conventionalStep s now) := by
  unfold conventionalStep angleEvolves tailAdvance
  dsimp only
  split_ifs <;> simp [TAIL_END, TAIL_START]

set_option maxHeartbeats 2000000 in
/-- The TRANSITION_OUT branch only moves each rotor by its fixed step. -/
theorem transitionOutStep_angles (s : FlightState) (now : Nat) :
    angleEvolves s (transitionOutStep s now) := by
  unfold transitionOutStep angleEvolves propTickUpdate stepPropAngles tailAdvance
  dsimp only
  split_ifs <;> simp [TAIL_END, TAIL_START]

set_option maxHeartbeats 1000000 in
/-- The GROUND_PAUSE branch only moves the tail by its fixed step. -/
theorem groundPauseStep_angles (s : FlightState) (now : Nat) :
    angleEvolves s (groundPauseStep s now).1 := by
  unfold groundPauseStep angleEvolves tailAdvance
  dsimp only
  split_ifs <;> simp [TAIL_END, TAIL_START]

/-- A state evolves from itself (no rotor moved). -/
theorem angleEvolves_refl (s : FlightState) : angleEvolves s s := by
  unfold angleEvolves
  exact ⟨Or.inl rfl, Or.inl rfl, Or.inl rfl, Or.inl rfl, Or.inl rfl⟩

/-- One pass of the phase dispatch only moves each rotor by its fixed step. -/
theorem phaseStep_angles (s : FlightState) (now : Nat) :
    angleEvolves s (phaseStep s now).1 := by
  unfold phaseStep
  split_ifs
  · exact liftStep_angles s now
  · exact transitionInStep_angles s now
  · exact conventionalStep_angles s now
  · exact transitionOutStep_angles s now
  · exact groundPauseStep_angles s now
  · exact angleEvolves_refl s

/-- The phase dispatch preserves the angle bounds. -/
theorem anglesOK_phaseStep (s : FlightState) (now : Nat) (h : anglesOK s) :
    anglesOK (phaseStep s now).1 := by
  obtain ⟨h1, h2, h3, h4, h5⟩ := h
  have hc := phaseStep_angles s now
  unfold angleEvolves at hc
  obtain ⟨c1, c2, c3, c4, c5⟩ := hc
  refine ⟨?_, ?_, ?_, ?_, ?_⟩
  · cases c1 with
    | inl h => rw [h]; exact h1
    | inr h => rw [h]; split <;> omega
  · cases c2 with
    | inl h => rw [h]; exact h2
    | inr h => rw [h]; exact Nat.mod_lt _ (by norm_num)
  · cases c3 with
    | inl h => rw [h]; exact h3
    | inr h => rw [h]; exact Nat.mod_lt _ (by norm_num)
  · cases c4 with
    | inl h => rw [h]; exact h4
    | inr h => rw [h]; split <;> omega
  · cases c5 with
    | inl h => rw [h]; exact h5
    | inr h => rw [h]; exact Nat.mod_lt _ (by norm_num)

/-- With no abort, the state after a tick is the phase-dispatch state. -/
theorem tick_state_gbfalse (s : FlightState) (now : Nat) :
    (tick s now false).state = (phaseStep s (now % UINT32)).1 := by
  unfold tick
  dsimp only
  split <;> rfl

/-- C7: the bounds hold initially, every tick preserves them (every prop
angle stays in [0,9) and the tail position in [0,5)), and on every
abort-free tick each prop angle counter is unchanged or moves one step in
its fixed direction: props 1 and 4 (indices 0 and 3) only decrement modulo
9, props 2 and 3 (indices 1 and 2) only increment modulo 9, and the tail
only increments modulo 5. -/
theorem rotor_direction_invariant :
    anglesOK initState ∧
    (∀ s now gb, anglesOK s → anglesOK (tick s now gb).state) ∧
    (∀ s now, angleEvolves s (tick s now false).state) := by
  refine ⟨by simp [anglesOK, initState], ?_, ?_⟩
  · intro s now gb hok
    unfold tick
    dsimp only
    split
    · exact anglesOK_phaseStep s _ hok
    · split
      · simp [abortReset, anglesOK]
      · exact anglesOK_phaseStep s _ hok
  · intro s now
    rw [tick_state_gbfalse]
    exact phaseStep_angles s (now % UINT32)

/-- Witness for C7: the bounds hold after one tick from the initial state. -/
theorem rotor_direction_invariant_witness :
    anglesOK (tick initState 0 false).state :=
  rotor_direction_invariant.2.1 initState 0 false (by simp [anglesOK, initState])

/-- On a completing call the stored phase is reset to 0. -/
theorem phaseStep_fst_phase_of_done (s : FlightState) (now : Nat)
    (h : (phaseStep s now).2 = true) : (phaseStep s now).1.phase = 0 := by
  obtain ⟨h4, ht⟩ := (phaseStep_snd_iff s now).mp h
  rw [phaseStep_phase4 s now h4, groundPauseStep_eq_of_done s now ht]

/-- Full description of a non-completing abort-free call: the phase-stepped
state is kept, the frame is rendered and committed once. -/
theorem tick_false_eq (s : FlightState) (now : Nat)
    (h : (phaseStep s (now % UINT32)).2 = false) :
    tick s now false =
      { state := (phaseStep s (now % UINT32)).1, complete := false, gotBreak := false
        pixels := renderPixels (phaseStep s (now % UINT32)).1, shows := 1 } := by
  unfold tick
  dsimp only
  rw [h, if_neg Bool.false_ne_true, if_neg Bool.false_ne_true]

/-- C8: on any rendered (abort-free) tick, if the phase after the phase
logic is CONVENTIONAL the lit prop cells are exactly the parked offsets
({0,4} for props 1 and 3, {8,4} for props 2 and 4) plus the tail cell; and
in general the frame holds the spinning blade pattern if and only if the
phase is not CONVENTIONAL and the prop period is strictly below the parked
maximum of 500ms. -/
theorem conventional_parked_rendering (s : FlightState) (now : Nat) :
    ((tick s now false).state.phase = 2 →
      (tick s now false).pixels =
        parkedPixels ++ [TAIL_START + (tick s now false).state.tail_pos]) ∧
    ((tick s now false).complete = false →
      (tick s now false).pixels =
        (if (tick s now false).state.phase ≠ 2 ∧
            (tick s now false).state.propDelay < maxPropDelay
          then spinningPixels (tick s now false).state
          else parkedPixels) ++ [TAIL_START + (tick s now false).state.tail_pos]) := by
  by_cases hdone : (phaseStep s (now % UINT32)).2 = true
  · obtain ⟨h4, ht⟩ := (phaseStep_snd_iff s (now % UINT32)).mp hdone
    have hphase := phaseStep_fst_phase_of_done s (now % UINT32) hdone
    rw [tick_state_gbfalse]
    have hcompl : (tick s now false).complete = true := by
      rw [tick_complete_iff]
      rw [usub32_mod_left] at ht
      exact ⟨h4, ht⟩
    constructor
    · intro h2
      rw [hphase] at h2
      exact absurd h2 (by decide)
    · intro hc
      rw [hcompl] at hc
      exact absurd hc (by simp)
  · rw [Bool.not_eq_true] at hdone
    rw [tick_false_eq s now hdone]
    dsimp only
    constructor
    · intro h2
      unfold renderPixels propsSpinning
      rw [h2]
      simp
    · intro _
      unfold renderPixels propsSpinning
      by_cases hA : (phaseStep s (now % UINT32)).1.phase ≠ 2 <;>
        by_cases hB : (phaseStep s (now % UINT32)).1.propDelay < maxPropDelay <;>
          simp [hA, hB]

/-- Witness for C8 at a reachable CONVENTIONAL state of the simulated run. -/
theorem conventional_parked_rendering_witness :
    (tick chunkState7 14010 false).pixels =
      parkedPixels ++ [TAIL_START + (tick chunkState7 14010 false).state.tail_pos] :=
  (conventional_parked_rendering chunkState7 14010).1 (by decide)

end Alia

namespace Alia

/-- Spec model (§4.1 step 3): the sequencer state in which each prop keeps
its own last-update timestamp `last_prop_update_at[i]`, instead of the
implementation's single shared `lastPropUpdate`.  All other fields are as in
`FlightState`. -/
structure SpecFlightState where
  prop1_angle : Nat
  prop2_angle : Nat
  prop3_angle : Nat
  prop4_angle : Nat
  tail_pos : Nat
  lastPropUpdate1 : Nat
  lastPropUpdate2 : Nat
  lastPropUpdate3 : Nat
  lastPropUpdate4 : Nat
  lastTailUpdate : Nat
  propDelay : Int
  tailDelay : Int
  phaseStart : Nat
  phase : Int
deriving DecidableEq

/-- Spec model (§4.1 step 3): per-prop rotor advancement — for each prop
`i`, if `now - last_prop_update_at[i] >= prop_update_period_ms`, advance
`prop_angle[i]` by its fixed direction modulo 9 and record
`last_prop_update_at[i] = now`. -/
def specPropTickUpdate (t : SpecFlightState) (now : Nat) : SpecFlightState :=
  let t := if toU32 t.propDelay ≤ usub32 now t.lastPropUpdate1 then
      { t with prop1_angle := if 0 < t.prop1_angle then t.prop1_angle - 1 else 8
               lastPropUpdate1 := now } else t
  let t := if toU32 t.propDelay ≤ usub32 now t.lastPropUpdate2 then
      { t with prop2_angle := (t.prop2_angle + 1) % 9
               lastPropUpdate2 := now } else t
  let t := if toU32 t.propDelay ≤ usub32 now t.lastPropUpdate3 then
      { t with prop3_angle := (t.prop3_angle + 1) % 9
               lastPropUpdate3 := now } else t
  if toU32 t.propDelay ≤ usub32 now t.lastPropUpdate4 then
      { t with prop4_angle := if 0 < t.prop4_angle then t.prop4_angle - 1 else 8
               lastPropUpdate4 := now } else t

/-- Spec model: tail advancement, as in the implementation. -/
def specTailAdvance (t : SpecFlightState) (now : Nat) : SpecFlightState :=
  { t with lastTailUpdate := now
           tail_pos := (t.tail_pos + 1) % (TAIL_END - TAIL_START + 1) }

/-- Spec model: the LIFT branch with per-prop rotor advancement; otherwise
identical to `liftStep`. -/
def specLiftStep (t : SpecFlightState) (now : Nat) : SpecFlightState :=
  let phaseElapsed := usub32 now t.phaseStart
  let liftProgress : ℚ := (phaseElapsed : ℚ) / (liftTime : ℚ)
  let liftProgress := if 1 < liftProgress then 1 else liftProgress
  let t := { t with propDelay := calculatePropDelay liftProgress }
  let t := specPropTickUpdate t now
  let t := if toU32 verySlowTailDelay ≤ usub32 now t.lastTailUpdate then
      specTailAdvance t now else t
  if liftTime ≤ phaseElapsed then
    { t with phase := 1, phaseStart := now, propDelay := minPropDelay }
  else t

/-- Spec model: the TRANSITION_IN branch with per-prop rotor advancement. -/
def specTransitionInStep (t : SpecFlightState) (now : Nat) : SpecFlightState :=
  let phaseElapsed := usub32 now t.phaseStart
  let t :=
    if transitionInHoldTime < phaseElapsed then
      let decelProgress : ℚ :=
        (usub32 phaseElapsed transitionInHoldTime : ℚ) /
          ((transitionInTime - transitionInHoldTime : Nat) : ℚ)
      let decelProgress := if 1 < decelProgress then 1 else decelProgress
      { t with propDelay := calculatePropDelay (1 - decelProgress) }
    else
      { t with propDelay := minPropDelay }
  let t := specPropTickUpdate t now
  let t := if toU32 minTailDelay ≤ usub32 now t.lastTailUpdate then
      specTailAdvance t now else t
  if transitionInTime ≤ phaseElapsed then
    { t with phase := 2, phaseStart := now, propDelay := maxPropDelay }
  else t

/-- Spec model: the CONVENTIONAL branch (no prop update, as implemented). -/
def specConventionalStep (t : SpecFlightState) (now : Nat) : SpecFlightState :=
  let phaseElapsed := usub32 now t.phaseStart
  let t := if toU32 conventionalTailDelay ≤ usub32 now t.lastTailUpdate then
      specTailAdvance t now else t
  if conventionalTime ≤ phaseElapsed then
    { t with phase := 3, phaseStart := now, tailDelay := minTailDelay }
  else t

/-- Spec model: the TRANSITION_OUT branch with per-prop rotor advancement. -/
def specTransitionOutStep (t : SpecFlightState) (now : Nat) : SpecFlightState :=
  let phaseElapsed := usub32 now t.phaseStart
  let t :=
    if toU32 t.tailDelay ≤ usub32 now t.lastTailUpdate then
      let td := t.tailDelay + 1
      let td := if maxTailDelay < td then maxTailDelay else td
      specTailAdvance { t with tailDelay := td } now
    else t
  let t :=
    if phaseElapsed < transitionOutSpinUpTime then
      let accelProgress : ℚ := (phaseElapsed : ℚ) / (transitionOutSpinUpTime : ℚ)
      { t with propDelay := calculatePropDelay accelProgress }
    else if phaseElapsed < transitionOutSpinUpTime + transitionOutHoldTime then
      { t with propDelay := minPropDelay }
    else
      let decelProgress : ℚ :=
        (usub32 (usub32 phaseElapsed transitionOutSpinUpTime) transitionOutHoldTime : ℚ) /
          (transitionOutSpinDownTime : ℚ)
      let decelProgress := if 1 < decelProgress then 1 else decelProgress
      { t with propDelay := calculatePropDelay (1 - decelProgress) }
  let t := specPropTickUpdate t now
  if transitionOutLandingTime ≤ phaseElapsed then
    { t with phase := 4, phaseStart := now, propDelay := maxPropDelay }
  else t

/-- Spec model: the GROUND_PAUSE branch. -/
def specGroundPauseStep (t : SpecFlightState) (now : Nat) : SpecFlightState × Bool :=
  let phaseElapsed := usub32 now t.phaseStart
  let t := if toU32 verySlowTailDelay ≤ usub32 now t.lastTailUpdate then
      specTailAdvance t now else t
  if groundPauseTime ≤ phaseElapsed then
    ({ t with phase := 0, phaseStart := now
              propDelay := maxPropDelay, tailDelay := maxTailDelay }, true)
  else (t, false)

/-- Spec model: the phase dispatch. -/
def specPhaseStep (t : SpecFlightState) (now : Nat) : SpecFlightState × Bool :=
  if t.phase = 0 then (specLiftStep t now, false)
  else if t.phase = 1 then (specTransitionInStep t now, false)
  else if t.phase = 2 then (specConventionalStep t now, false)
  else if t.phase = 3 then (specTransitionOutStep t now, false)
  else if t.phase = 4 then specGroundPauseStep t now
  else (t, false)

/-- Spec model: the abort reset (as in the implementation, the per-prop and
tail update timestamps are kept). -/
def specAbortReset (t : SpecFlightState) (now : Nat) : SpecFlightState :=
  { t with phase := 0, phaseStart := now
           propDelay := maxPropDelay, tailDelay := maxTailDelay
           prop1_angle := 0, prop2_angle := 0, prop3_angle := 0
           prop4_angle := 0, tail_pos := 0 }

/-- Spec model: one tick (state evolution and completion flag only; the
rendering is identical to the implementation and not repeated here). -/
def specTick (t : SpecFlightState) (now0 : Nat) (gb : Bool) : SpecFlightState × Bool :=
  let now := now0 % UINT32
  let p := specPhaseStep t now
  if p.2 then (p.1, true)
  else if gb then (specAbortReset p.1 now, false)
  else (p.1, false)

/-- Inject the implementation state into the spec model: all four per-prop
timestamps are the shared one. -/
def toSpec (s : FlightState) : SpecFlightState :=
  { prop1_angle := s.prop1_angle, prop2_angle := s.prop2_angle
    prop3_angle := s.prop3_angle, prop4_angle := s.prop4_angle
    tail_pos := s.tail_pos
    lastPropUpdate1 := s.lastPropUpdate, lastPropUpdate2 := s.lastPropUpdate
    lastPropUpdate3 := s.lastPropUpdate, lastPropUpdate4 := s.lastPropUpdate
    lastTailUpdate := s.lastTailUpdate, propDelay := s.propDelay
    tailDelay := s.tailDelay, phaseStart := s.phaseStart, phase := s.phase }

/-- On synchronized timestamps the four per-prop checks coincide with the
shared check: either all four props advance or none does. -/
@[simp] theorem specPropTickUpdate_toSpec (s : FlightState) (now : Nat) :
    specPropTickUpdate (toSpec s) now = toSpec (propTickUpdate s now) := by
  unfold specPropTickUpdate propTickUpdate stepPropAngles toSpec
  dsimp only
  by_cases h : toU32 s.propDelay ≤ usub32 now s.lastPropUpdate <;> simp [h]


end Alia


namespace Alia

@[simp] theorem toSpec_prop1_angle (s : FlightState) : (toSpec s).prop1_angle = s.prop1_angle := rfl
@[simp] theorem toSpec_prop2_angle (s : FlightState) : (toSpec s).prop2_angle = s.prop2_angle := rfl
@[simp] theorem toSpec_prop3_angle (s : FlightState) : (toSpec s).prop3_angle = s.prop3_angle := rfl
@[simp] theorem toSpec_prop4_angle (s : FlightState) : (toSpec s).prop4_angle = s.prop4_angle := rfl
@[simp] theorem toSpec_tail_pos (s : FlightState) : (toSpec s).tail_pos = s.tail_pos := rfl
@[simp] theorem toSpec_lastPropUpdate1 (s : FlightState) : (toSpec s).lastPropUpdate1 = s.lastPropUpdate := rfl
@[simp] theorem toSpec_lastPropUpdate2 (s : FlightState) : (toSpec s).lastPropUpdate2 = s.lastPropUpdate := rfl
@[simp] theorem toSpec_lastPropUpdate3 (s : FlightState) : (toSpec s).lastPropUpdate3 = s.lastPropUpdate := rfl
@[simp] theorem toSpec_lastPropUpdate4 (s : FlightState) : (toSpec s).lastPropUpdate4 = s.lastPropUpdate := rfl
@[simp] theorem toSpec_lastTailUpdate (s : FlightState) : (toSpec s).lastTailUpdate = s.lastTailUpdate := rfl
@[simp] theorem toSpec_propDelay (s : FlightState) : (toSpec s).propDelay = s.propDelay := rfl
@[simp] theorem toSpec_tailDelay (s : FlightState) : (toSpec s).tailDelay = s.tailDelay := rfl
@[simp] theorem toSpec_phaseStart (s : FlightState) : (toSpec s).phaseStart = s.phaseStart := rfl
@[simp] theorem toSpec_phase (s : FlightState) : (toSpec s).phase = s.phase := rfl

@[simp] theorem toSpec_setDelay (s : FlightState) (d : Int) :
    SpecFlightState.mk s.prop1_angle s.prop2_angle s.prop3_angle s.prop4_angle
      s.tail_pos s.lastPropUpdate s.lastPropUpdate s.lastPropUpdate s.lastPropUpdate
      s.lastTailUpdate d s.tailDelay s.phaseStart s.phase
      = toSpec { s with propDelay := d } := rfl

@[simp] theorem toSpec_setTailDelay (s : FlightState) (td : Int) :
    SpecFlightState.mk s.prop1_angle s.prop2_angle s.prop3_angle s.prop4_angle
      s.tail_pos s.lastPropUpdate s.lastPropUpdate s.lastPropUpdate s.lastPropUpdate
      s.lastTailUpdate s.propDelay td s.phaseStart s.phase
      = toSpec { s with tailDelay := td } := rfl

@[simp] theorem toSpec_update1 (s : FlightState) (p : Int) (ps : Nat) (d : Int) :
    SpecFlightState.mk s.prop1_angle s.prop2_angle s.prop3_angle s.prop4_angle
      s.tail_pos s.lastPropUpdate s.lastPropUpdate s.lastPropUpdate s.lastPropUpdate
      s.lastTailUpdate d s.tailDelay ps p
      = toSpec { s with phase := p, phaseStart := ps, propDelay := d } := rfl

@[simp] theorem toSpec_update2 (s : FlightState) (p : Int) (ps : Nat) (td : Int) :
    SpecFlightState.mk s.prop1_angle s.prop2_angle s.prop3_angle s.prop4_angle
      s.tail_pos s.lastPropUpdate s.lastPropUpdate s.lastPropUpdate s.lastPropUpdate
      s.lastTailUpdate s.propDelay td ps p
      = toSpec { s with phase := p, phaseStart := ps, tailDelay := td } := rfl

@[simp] theorem toSpec_update3 (s : FlightState) (p : Int) (ps : Nat) (d td : Int) :
    SpecFlightState.mk s.prop1_angle s.prop2_angle s.prop3_angle s.prop4_angle
      s.tail_pos s.lastPropUpdate s.lastPropUpdate s.lastPropUpdate s.lastPropUpdate
      s.lastTailUpdate d td ps p
      = toSpec { s with phase := p, phaseStart := ps, propDelay := d, tailDelay := td } := rfl

@[simp] theorem specTailAdvance_toSpec (s : FlightState) (now : Nat) :
    specTailAdvance (toSpec s) now = toSpec (tailAdvance s now) := rfl

@[simp] theorem specAbortReset_toSpec (s : FlightState) (now : Nat) :
    specAbortReset (toSpec s) now = toSpec (abortReset s now) := rfl

/-- The spec-model LIFT branch simulates the implementation's. -/
theorem specLiftStep_toSpec (s : FlightState) (now : Nat) :
    specLiftStep (toSpec s) now = toSpec (liftStep s now) := by
  unfold specLiftStep liftStep
  dsimp only
  simp
  split_ifs <;> simp





/-- A choice between two injected states is the injected choice. -/
@[simp] theorem ite_toSpec (c : Prop) [Decidable c] (x y : FlightState) :
    (if c then toSpec x else toSpec y) = toSpec (if c then x else y) := by
  split <;> rfl

set_option maxHeartbeats 1000000 in
/-- The spec-model TRANSITION_IN branch simulates the implementation's. -/
theorem specTransitionInStep_toSpec (s : FlightState) (now : Nat) :
    specTransitionInStep (toSpec s) now = toSpec (transitionInStep s now) := by
  unfold specTransitionInStep transitionInStep
  dsimp only
  simp only [toSpec_phaseStart, toSpec_prop1_angle, toSpec_prop2_angle, toSpec_prop3_angle,
    toSpec_prop4_angle, toSpec_tail_pos, toSpec_lastPropUpdate1, toSpec_lastPropUpdate2,
    toSpec_lastPropUpdate3, toSpec_lastPropUpdate4, toSpec_lastTailUpdate, toSpec_propDelay,
    toSpec_tailDelay, toSpec_phase, toSpec_setDelay, toSpec_setTailDelay, ite_toSpec,
    specPropTickUpdate_toSpec, specTailAdvance_toSpec, toSpec_update1, toSpec_update2,
    toSpec_update3, specAbortReset_toSpec]

/-- The spec-model CONVENTIONAL branch simulates the implementation's. -/
theorem specConventionalStep_toSpec (s : FlightState) (now : Nat) :
    specConventionalStep (toSpec s) now = toSpec (conventionalStep s now) := by
  unfold specConventionalStep conventionalStep
  dsimp only
  simp only [toSpec_phaseStart, toSpec_prop1_angle, toSpec_prop2_angle, toSpec_prop3_angle,
    toSpec_prop4_angle, toSpec_tail_pos, toSpec_lastPropUpdate1, toSpec_lastPropUpdate2,
    toSpec_lastPropUpdate3, toSpec_lastPropUpdate4, toSpec_lastTailUpdate, toSpec_propDelay,
    toSpec_tailDelay, toSpec_phase, toSpec_setDelay, toSpec_setTailDelay, ite_toSpec,
    specPropTickUpdate_toSpec, specTailAdvance_toSpec, toSpec_update1, toSpec_update2,
    toSpec_update3, specAbortReset_toSpec]

set_option maxHeartbeats 2000000 in
/-- The spec-model TRANSITION_OUT branch simulates the implementation's. -/
theorem specTransitionOutStep_toSpec (s : FlightState) (now : Nat) :
    specTransitionOutStep (toSpec s) now = toSpec (transitionOutStep s now) := by
  unfold specTransitionOutStep transitionOutStep
  dsimp only
  simp only [toSpec_phaseStart, toSpec_prop1_angle, toSpec_prop2_angle, toSpec_prop3_angle,
    toSpec_prop4_angle, toSpec_tail_pos, toSpec_lastPropUpdate1, toSpec_lastPropUpdate2,
    toSpec_lastPropUpdate3, toSpec_lastPropUpdate4, toSpec_lastTailUpdate, toSpec_propDelay,
    toSpec_tailDelay, toSpec_phase, toSpec_setDelay, toSpec_setTailDelay, ite_toSpec,
    specPropTickUpdate_toSpec, specTailAdvance_toSpec, toSpec_update1, toSpec_update2,
    toSpec_update3, specAbortReset_toSpec]

/-- The spec-model GROUND_PAUSE branch simulates the implementation's. -/
theorem specGroundPauseStep_toSpec (s : FlightState) (now : Nat) :
    specGroundPauseStep (toSpec s) now =
      (toSpec (groundPauseStep s now).1, (groundPauseStep s now).2) := by
  unfold specGroundPauseStep groundPauseStep
  dsimp only
  simp only [toSpec_phaseStart, toSpec_prop1_angle, toSpec_prop2_angle, toSpec_prop3_angle,
    toSpec_prop4_angle, toSpec_tail_pos, toSpec_lastPropUpdate1, toSpec_lastPropUpdate2,
    toSpec_lastPropUpdate3, toSpec_lastPropUpdate4, toSpec_lastTailUpdate, toSpec_propDelay,
    toSpec_tailDelay, toSpec_phase, toSpec_setDelay, toSpec_setTailDelay, ite_toSpec,
    specPropTickUpdate_toSpec, specTailAdvance_toSpec, toSpec_update1, toSpec_update2,
    toSpec_update3, specAbortReset_toSpec]
  split_ifs <;> rfl

/-- The spec-model phase dispatch simulates the implementation's. -/
theorem specPhaseStep_toSpec (s : FlightState) (now : Nat) :
    specPhaseStep (toSpec s) now = (toSpec (phaseStep s now).1, (phaseStep s now).2) := by
  unfold specPhaseStep phaseStep
  simp only [toSpec_phase]
  split_ifs <;>
    simp [specLiftStep_toSpec, specTransitionInStep_toSpec, specConventionalStep_toSpec,
      specTransitionOutStep_toSpec, specGroundPauseStep_toSpec]

/-- The spec-model tick simulates the implementation's tick: related states
stay related and the completion flags agree. -/
theorem specTick_toSpec (s : FlightState) (now : Nat) (gb : Bool) :
    specTick (toSpec s) now gb =
      (toSpec (tick s now gb).state, (tick s now gb).complete) := by
  unfold specTick tick
  dsimp only
  rw [specPhaseStep_toSpec]
  dsimp only
  split_ifs <;> simp


/-- The observable angles after each tick of a clock/abort input trace, for
the implementation. -/
def angleTrace (s : FlightState) : List (Nat × Bool) → List (Nat × Nat × Nat × Nat × Nat)
  | [] => []
  | (n, g) :: rest =>
      ((tick s n g).state.prop1_angle, (tick s n g).state.prop2_angle,
        (tick s n g).state.prop3_angle, (tick s n g).state.prop4_angle,
        (tick s n g).state.tail_pos) :: angleTrace (tick s n g).state rest

/-- The observable angles after each tick of a clock/abort input trace, for
the spec model with per-prop timestamps. -/
def specAngleTrace (t : SpecFlightState) : List (Nat × Bool) → List (Nat × Nat × Nat × Nat × Nat)
  | [] => []
  | (n, g) :: rest =>
      ((specTick t n g).1.prop1_angle, (specTick t n g).1.prop2_angle,
        (specTick t n g).1.prop3_angle, (specTick t n g).1.prop4_angle,
        (specTick t n g).1.tail_pos) :: specAngleTrace (specTick t n g).1 rest

/-- The two models produce identical angle traces from related states. -/
theorem specAngleTrace_toSpec (inputs : List (Nat × Bool)) (s : FlightState) :
    specAngleTrace (toSpec s) inputs = angleTrace s inputs := by
  induction inputs generalizing s with
  | nil => rfl
  | cons p rest ih =>
      obtain ⟨n, g⟩ := p
      simp only [specAngleTrace, angleTrace, specTick_toSpec, toSpec_prop1_angle,
        toSpec_prop2_angle, toSpec_prop3_angle, toSpec_prop4_angle, toSpec_tail_pos]
      rw [ih]


/-- C9: the implementation's single shared last-prop-update timestamp is
observationally equivalent to the spec model in which each prop keeps its
own last_prop_update_at[i]: for every monotonic clock trace the two models
produce identical angle sequences, and in the spec model started from a
synchronized state the four props always advance together or not at all. -/
theorem shared_timestamp_refines_per_prop (s : FlightState) (inputs : List (Nat × Bool))
    (_hmono : List.Chain' (fun a b => a.1 ≤ b.1) inputs) :
    specAngleTrace (toSpec s) inputs = angleTrace s inputs ∧
    (∀ u now, specPropTickUpdate (toSpec u) now = toSpec u ∨
      specPropTickUpdate (toSpec u) now =
        toSpec (stepPropAngles { u with lastPropUpdate := now })) := by
  refine ⟨specAngleTrace_toSpec inputs s, ?_⟩
  intro u now
  rw [specPropTickUpdate_toSpec]
  unfold propTickUpdate
  split
  · exact Or.inr rfl
  · exact Or.inl rfl

/-- Witness for C9 on a concrete monotonic two-tick trace. -/
theorem shared_timestamp_refines_per_prop_witness :
    specAngleTrace (toSpec initState) [(0, false), (10, false)] =
      angleTrace initState [(0, false), (10, false)] :=
  (shared_timestamp_refines_per_prop initState [(0, false), (10, false)]
    (by simp [List.chain'_cons])).1

end Alia
